import Mathlib

/-!
Verification of `pkg/models/const.go`

A shallow embedding of the `models` package: the `Language` flag value with its
`String`/`Set` methods, the theme state (`CurrentTheme`, `IsAnsiDisabled`), the four
highlighters and the two colour-scheme getters, together with the parts of the
libraries `fmt`, `github.com/fatih/color` and `github.com/k0kubun/pp/v3` that they call.

Go strings are embedded as `String`, the Go `error` returned by `errors.New` as its
message, and a method with a pointer receiver as a function that returns the new
value of the receiver next to its result.
-/

namespace Models

/-! ## The `Language` flag value -/

/-- Go: `type Language string`. -/
abbrev Language := String

/-- Go: `Unknown Language = "Unknown"`. -/
def Unknown : Language := "Unknown"
/-- Go: `Go Language = "go"`. -/
def Go : Language := "go"
/-- Go: `Java Language = "java"`. -/
def Java : Language := "java"
/-- Go: `Python Language = "python"`. -/
def Python : Language := "python"
/-- Go: `Javascript Language = "javascript"`. -/
def Javascript : Language := "javascript"

/-- The text handed to `errors.New` in the default branch of `Set` (a raw string
literal in the source). -/
def invalidLanguageMessage : String :=
  "must be one of \"go\", \"java\", \"python\" or \"javascript\""

/-- Go: `func (e *Language) Set(v string) error`. The first component is `*e` after the
call, the second the returned error (`none` for `nil`, `some m` for `errors.New(m)`). -/
def Language.Set (e : Language) (v : String) : Language × Option String :=
  if v = "go" ∨ v = "java" ∨ v = "python" ∨ v = "javascript" then
    (v, none)
  else
    (e, some invalidLanguageMessage)

/-- Go: `func (e *Language) Type() string`. -/
def Language.Type (_e : Language) : String := "myEnum"

/-- Go: `func (e *Language) String() string`, which returns `string(*e)`. -/
def Language.String (e : Language) : String := e

/-- The four strings named by the `case` of `Set`. -/
def acceptedLanguages : List String := ["go", "java", "python", "javascript"]

/-- The text `w` between two double quotes. -/
def quoted (w : String) : String := "\"" ++ w ++ "\""

/-- The string `s` occurs in `t` as a contiguous piece. -/
def occursIn (s t : String) : Prop := s.toList <:+: t.toList

instance (s t : String) : Decidable (occursIn s t) := by
  unfold occursIn; infer_instance

/-- All `w` without a blank such that `w` followed by a double quote starts `t`. -/
def tokensAt : List Char → List (List Char)
  | [] => []
  | c :: t =>
    (if c = Char.ofNat 34 then [[]] else []) ++
      (if c = Char.ofNat 32 then [] else (tokensAt t).map (List.cons c))

/-- All `w` without a blank whose quoted form starts `t`. -/
def quotedAt : List Char → List (List Char)
  | [] => []
  | c :: t => if c = Char.ofNat 34 then tokensAt t else []

/-- All `w` without a blank whose quoted form occurs in `m`. -/
def quotedIn (m : List Char) : List (List Char) :=
  m.tails.flatMap quotedAt

/-! ## Go values and `fmt` -/

/-- The values handed to the variadic `...interface{}` parameters: strings, integers,
booleans, the nil interface, slices of such values, and a value of any other type,
given by the text that `fmt` prints for it under `%v`. -/
inductive GoValue where
  | str (s : String)
  | int (i : Int)
  | bool (b : Bool)
  | nil
  | slice (xs : List GoValue)
  | other (text : String)

mutual
/-- Package `fmt`, the verb `%v`: a string is written as it is, an integer in decimal,
a boolean as `true` or `false`, the nil interface as `<nil>`, a slice as its elements
between square brackets. -/
def fmt.formatV : GoValue → String
  | .str s => s
  | .int i => toString i
  | .bool b => if b then "true" else "false"
  | .nil => "<nil>"
  | .slice xs => "[" ++ fmt.formatElems xs ++ "]"
  | .other text => text
/-- The loop of `fmt` over the elements of a slice: a blank before every element but
the first. -/
def fmt.formatElems : List GoValue → String
  | [] => ""
  | [x] => fmt.formatV x
  | x :: y :: xs => fmt.formatV x ++ " " ++ fmt.formatElems (y :: xs)
end

/-- Package `fmt`: whether an operand has kind string. -/
def fmt.isString : GoValue → Bool
  | .str _ => true
  | _ => false

/-- Package `fmt`, `doPrint`: a blank goes between two operands when neither is a
string. -/
def fmt.doPrint (argNum : Nat) (prevString : Bool) : List GoValue → String
  | [] => ""
  | arg :: rest =>
    (if 0 < argNum ∧ fmt.isString arg = false ∧ prevString = false then " " else "") ++
      fmt.formatV arg ++ fmt.doPrint (argNum + 1) (fmt.isString arg) rest

/-- Go: `fmt.Sprint(a...)`, applied to the list of its operands. -/
def fmt.Sprint (a : List GoValue) : String := fmt.doPrint 0 false a

/-- The escape character, `0x1B`. -/
def ESC : Char := Char.ofNat 27

/-- The string `s` holds an escape character. -/
def hasESC (s : String) : Prop := ESC ∈ s.toList

instance (s : String) : Decidable (hasESC s) := by
  unfold hasESC; infer_instance

/-! ## `github.com/fatih/color` -/

/-- Package `color`: `type Attribute int`. -/
abbrev color.Attribute := Nat

def color.Reset : color.Attribute := 0
def color.Bold : color.Attribute := 1
def color.Faint : color.Attribute := 2
def color.Italic : color.Attribute := 3
def color.Underline : color.Attribute := 4
def color.BlinkSlow : color.Attribute := 5
def color.BlinkRapid : color.Attribute := 6
def color.ReverseVideo : color.Attribute := 7
def color.Concealed : color.Attribute := 8
def color.CrossedOut : color.Attribute := 9

def color.ResetBold : color.Attribute := 22
def color.ResetItalic : color.Attribute := 23
def color.ResetUnderline : color.Attribute := 24
def color.ResetBlinking : color.Attribute := 25
def color.ResetReversed : color.Attribute := 27
def color.ResetConcealed : color.Attribute := 28
def color.ResetCrossedOut : color.Attribute := 29

def color.FgRed : color.Attribute := 31
def color.FgGreen : color.Attribute := 32
def color.FgWhite : color.Attribute := 37
def color.FgHiBlack : color.Attribute := 90
def color.FgHiRed : color.Attribute := 91
def color.FgHiGreen : color.Attribute := 92
def color.FgHiCyan : color.Attribute := 96

/-- What the colour library reads from its surroundings: its package variable
`NoColor` and whether the environment variable `NO_COLOR` is set. -/
structure color.Env where
  NoColor : Bool
  noColorIsSet : Bool
deriving DecidableEq

/-- Package `color`: `type Color struct`, with its parameters and its own switch. -/
structure color.Color where
  params : List color.Attribute
  noColor : Option Bool
deriving DecidableEq

/-- Go: `color.New(value...)`. -/
def color.New (env : color.Env) (value : List color.Attribute) : color.Color :=
  { params := [] ++ value, noColor := if env.noColorIsSet then some true else none }

/-- Package `color`, `mapResetAttributes`: the attribute that undoes `v`, if it has
one of its own. -/
def color.mapResetAttributes (v : color.Attribute) : Option color.Attribute :=
  if v = color.Bold then some color.ResetBold
  else if v = color.Faint then some color.ResetBold
  else if v = color.Italic then some color.ResetItalic
  else if v = color.Underline then some color.ResetUnderline
  else if v = color.BlinkSlow then some color.ResetBlinking
  else if v = color.BlinkRapid then some color.ResetBlinking
  else if v = color.ReverseVideo then some color.ResetReversed
  else if v = color.Concealed then some color.ResetConcealed
  else if v = color.CrossedOut then some color.ResetCrossedOut
  else none

/-- Go: `(c *Color) sequence()`, the parameters in decimal joined by `;`. -/
def color.Color.sequence (c : color.Color) : String :=
  ";".intercalate (c.params.map fun v => toString v)

/-- Go: `(c *Color) format()`, the opening sequence. -/
def color.Color.format (c : color.Color) : String :=
  ESC.toString ++ "[" ++ c.sequence ++ "m"

/-- Go: `(c *Color) unformat()`, the closing sequence: for every parameter its own
reset attribute, or `Reset` when it has none. -/
def color.Color.unformat (c : color.Color) : String :=
  ESC.toString ++ "[" ++
    ";".intercalate (c.params.map fun v =>
      match color.mapResetAttributes v with
      | some ra => toString ra
      | none => toString color.Reset) ++ "m"

/-- Go: `(c *Color) isNoColorSet()`. -/
def color.Color.isNoColorSet (env : color.Env) (c : color.Color) : Bool :=
  match c.noColor with
  | some b => b
  | none => env.NoColor

/-- Go: `(c *Color) wrap(s)`. -/
def color.Color.wrap (env : color.Env) (c : color.Color) (s : String) : String :=
  if c.isNoColorSet env then s else c.format ++ s ++ c.unformat

/-- Go: `c.SprintFunc()(a...)`, applied to the list of its operands. -/
def color.Color.SprintFunc (env : color.Env) (c : color.Color) (a : List GoValue) : String :=
  c.wrap env (fmt.Sprint a)

/-! ## The theme state and the highlighters -/

/-- Go: `type Theme string`. -/
abbrev Theme := String

/-- Go: `ThemeLight Theme = "light"`. -/
def ThemeLight : Theme := "light"
/-- Go: `ThemeDark Theme = "dark"`. -/
def ThemeDark : Theme := "dark"

/-- The package variables `CurrentTheme` and `IsAnsiDisabled`. -/
structure State where
  CurrentTheme : Theme
  IsAnsiDisabled : Bool
deriving DecidableEq

/-- The values the package variables are declared with. -/
def State.initial : State := { CurrentTheme := ThemeLight, IsAnsiDisabled := false }

/-- Go: `var orangeColorSGR = []color.Attribute{38, 5, 208}`. -/
def orangeColorSGR : List color.Attribute := [38, 5, 208]

/-- Go: `HighlightString`. The parameter `a` is the slice the variadic arguments
arrive in; the source hands it on as one operand (`fmt.Sprint(a)`, `SprintFunc()(a)`). -/
def HighlightString (env : color.Env) (st : State) (a : List GoValue) : String :=
  if st.IsAnsiDisabled then
    fmt.Sprint [GoValue.slice a]
  else if st.CurrentTheme = ThemeDark then
    (color.New env [color.FgHiCyan]).SprintFunc env [GoValue.slice a]
  else
    (color.New env orangeColorSGR).SprintFunc env [GoValue.slice a]

/-- Go: `HighlightPassingString`. -/
def HighlightPassingString (env : color.Env) (st : State) (a : List GoValue) : String :=
  if st.IsAnsiDisabled then
    fmt.Sprint [GoValue.slice a]
  else if st.CurrentTheme = ThemeDark then
    (color.New env [color.FgHiGreen]).SprintFunc env [GoValue.slice a]
  else
    (color.New env [color.FgGreen]).SprintFunc env [GoValue.slice a]

/-- Go: `HighlightFailingString`. -/
def HighlightFailingString (env : color.Env) (st : State) (a : List GoValue) : String :=
  if st.IsAnsiDisabled then
    fmt.Sprint [GoValue.slice a]
  else if st.CurrentTheme = ThemeDark then
    (color.New env [color.FgHiRed]).SprintFunc env [GoValue.slice a]
  else
    (color.New env [color.FgRed]).SprintFunc env [GoValue.slice a]

/-- Go: `HighlightGrayString`. -/
def HighlightGrayString (env : color.Env) (st : State) (a : List GoValue) : String :=
  if st.IsAnsiDisabled then
    fmt.Sprint [GoValue.slice a]
  else if st.CurrentTheme = ThemeDark then
    (color.New env [color.FgWhite]).SprintFunc env [GoValue.slice a]
  else
    (color.New env [color.FgHiBlack]).SprintFunc env [GoValue.slice a]

/-! ## `github.com/k0kubun/pp/v3` and the colour schemes -/

/-- Package `pp`: `NoColor uint16 = 1 << 15`. -/
def pp.NoColor : Nat := 1 <<< 15
/-- Package `pp`: the foreground colours, `iota | NoColor` counted from `Black` = 1. -/
def pp.Black : Nat := 1 ||| pp.NoColor
def pp.Red : Nat := 2 ||| pp.NoColor
def pp.Green : Nat := 3 ||| pp.NoColor
def pp.Yellow : Nat := 4 ||| pp.NoColor
def pp.Blue : Nat := 5 ||| pp.NoColor
def pp.Magenta : Nat := 6 ||| pp.NoColor
def pp.Cyan : Nat := 7 ||| pp.NoColor
def pp.White : Nat := 8 ||| pp.NoColor
/-- Package `pp`: `Bold uint16 = 1<<bitsBold | NoColor` with `bitsBold = 8`. -/
def pp.Bold : Nat := (1 <<< 8) ||| pp.NoColor

/-- Package `pp`: `type ColorScheme struct`, twelve `uint16` fields. -/
structure pp.ColorScheme where
  Bool : Nat
  Integer : Nat
  Float : Nat
  String : Nat
  StringQuotation : Nat
  EscapedChar : Nat
  FieldName : Nat
  PointerAdress : Nat
  Nil : Nat
  Time : Nat
  StructName : Nat
  ObjectLength : Nat
deriving DecidableEq

/-- Go: `var defaultColorScheme`. -/
def defaultColorScheme : pp.ColorScheme :=
  { Bool := pp.NoColor
    Integer := pp.NoColor
    Float := pp.NoColor
    String := pp.NoColor
    StringQuotation := pp.NoColor
    EscapedChar := pp.NoColor
    FieldName := pp.NoColor
    PointerAdress := pp.NoColor
    Nil := pp.NoColor
    Time := pp.NoColor
    StructName := pp.NoColor
    ObjectLength := pp.NoColor }

/-- Go: `GetPassingColorScheme`. -/
def GetPassingColorScheme (st : State) : pp.ColorScheme :=
  if st.IsAnsiDisabled then
    defaultColorScheme
  else if st.CurrentTheme = ThemeDark then
    { String := pp.Green ||| pp.Bold
      StringQuotation := pp.Green ||| pp.Bold
      FieldName := pp.Cyan
      Integer := pp.Cyan ||| pp.Bold
      StructName := pp.White ||| pp.Bold
      Bool := pp.Yellow ||| pp.Bold
      Float := pp.Magenta ||| pp.Bold
      EscapedChar := pp.Magenta ||| pp.Bold
      PointerAdress := pp.Cyan ||| pp.Bold
      Nil := pp.Yellow ||| pp.Bold
      Time := pp.Cyan ||| pp.Bold
      ObjectLength := pp.Cyan }
  else
    { String := pp.Green
      StringQuotation := pp.Green ||| pp.Bold
      FieldName := pp.White
      Integer := pp.Blue ||| pp.Bold
      StructName := pp.NoColor
      Bool := pp.Cyan ||| pp.Bold
      Float := pp.Magenta ||| pp.Bold
      EscapedChar := pp.Magenta ||| pp.Bold
      PointerAdress := pp.Blue ||| pp.Bold
      Nil := pp.Cyan ||| pp.Bold
      Time := pp.Blue ||| pp.Bold
      ObjectLength := pp.Blue }

/-- Go: `GetFailingColorScheme`. -/
def GetFailingColorScheme (st : State) : pp.ColorScheme :=
  if st.IsAnsiDisabled then
    defaultColorScheme
  else if st.CurrentTheme = ThemeDark then
    { Bool := pp.Yellow ||| pp.Bold
      Integer := pp.Cyan ||| pp.Bold
      Float := pp.Magenta ||| pp.Bold
      String := pp.Red ||| pp.Bold
      StringQuotation := pp.Red ||| pp.Bold
      EscapedChar := pp.Magenta ||| pp.Bold
      FieldName := pp.Yellow ||| pp.Bold
      PointerAdress := pp.Cyan ||| pp.Bold
      Nil := pp.Yellow ||| pp.Bold
      Time := pp.Cyan ||| pp.Bold
      StructName := pp.White ||| pp.Bold
      ObjectLength := pp.Cyan }
  else
    { Bool := pp.Cyan ||| pp.Bold
      Integer := pp.Blue ||| pp.Bold
      Float := pp.Magenta ||| pp.Bold
      String := pp.Red
      StringQuotation := pp.Red ||| pp.Bold
      EscapedChar := pp.Magenta ||| pp.Bold
      FieldName := pp.Yellow
      PointerAdress := pp.Blue ||| pp.Bold
      Nil := pp.Cyan ||| pp.Bold
      Time := pp.Blue ||| pp.Bold
      StructName := pp.White
      ObjectLength := pp.Blue }

/-- The twelve attributes of a scheme, in the order of the fields of the struct. -/
def pp.ColorScheme.kinds (cs : pp.ColorScheme) : List Nat :=
  [cs.Bool, cs.Integer, cs.Float, cs.String, cs.StringQuotation, cs.EscapedChar,
    cs.FieldName, cs.PointerAdress, cs.Nil, cs.Time, cs.StructName, cs.ObjectLength]

/-! ## Calls in sequence -/

/-- A call of one of the four highlighters, with its arguments, or of one of the two
scheme getters. -/
inductive Call where
  | HighlightString (a : List GoValue)
  | HighlightPassingString (a : List GoValue)
  | HighlightFailingString (a : List GoValue)
  | HighlightGrayString (a : List GoValue)
  | GetPassingColorScheme
  | GetFailingColorScheme

/-- What a call returns: the text of a highlighter or the scheme of a getter. -/
inductive CallResult where
  | text (s : String)
  | scheme (cs : pp.ColorScheme)
deriving DecidableEq

/-- Everything the six functions can read or write: the package variables and the
surroundings of the colour library (`color.NoColor`, `NO_COLOR`). -/
structure World where
  vars : State
  lib : color.Env
deriving DecidableEq

/-- Go: `color.New(value...).SprintFunc()(a...)`, as a computation on the world: the
library looks up `NO_COLOR` and `color.NoColor` at the time of the call. -/
def Stateful.colorSprint (value : List color.Attribute) (a : List GoValue) :
    StateM World String := do
  let lib := (← get).lib
  return (color.New lib value).SprintFunc lib a

/-- Go: `HighlightString`, as a computation on the world. -/
def Stateful.HighlightString (a : List GoValue) : StateM World String := do
  if (← get).vars.IsAnsiDisabled then
    return fmt.Sprint [GoValue.slice a]
  else if (← get).vars.CurrentTheme = ThemeDark then
    Stateful.colorSprint [color.FgHiCyan] [GoValue.slice a]
  else
    Stateful.colorSprint orangeColorSGR [GoValue.slice a]

/-- Go: `HighlightPassingString`, as a computation on the world. -/
def Stateful.HighlightPassingString (a : List GoValue) : StateM World String := do
  if (← get).vars.IsAnsiDisabled then
    return fmt.Sprint [GoValue.slice a]
  else if (← get).vars.CurrentTheme = ThemeDark then
    Stateful.colorSprint [color.FgHiGreen] [GoValue.slice a]
  else
    Stateful.colorSprint [color.FgGreen] [GoValue.slice a]

/-- Go: `HighlightFailingString`, as a computation on the world. -/
def Stateful.HighlightFailingString (a : List GoValue) : StateM World String := do
  if (← get).vars.IsAnsiDisabled then
    return fmt.Sprint [GoValue.slice a]
  else if (← get).vars.CurrentTheme = ThemeDark then
    Stateful.colorSprint [color.FgHiRed] [GoValue.slice a]
  else
    Stateful.colorSprint [color.FgRed] [GoValue.slice a]

/-- Go: `HighlightGrayString`, as a computation on the world. -/
def Stateful.HighlightGrayString (a : List GoValue) : StateM World String := do
  if (← get).vars.IsAnsiDisabled then
    return fmt.Sprint [GoValue.slice a]
  else if (← get).vars.CurrentTheme = ThemeDark then
    Stateful.colorSprint [color.FgWhite] [GoValue.slice a]
  else
    Stateful.colorSprint [color.FgHiBlack] [GoValue.slice a]

/-- Go: `GetPassingColorScheme`, as a computation on the world. -/
def Stateful.GetPassingColorScheme : StateM World pp.ColorScheme := do
  if (← get).vars.IsAnsiDisabled then
    return defaultColorScheme
  else if (← get).vars.CurrentTheme = ThemeDark then
    return (
      { String := pp.Green ||| pp.Bold
        StringQuotation := pp.Green ||| pp.Bold
        FieldName := pp.Cyan
        Integer := pp.Cyan ||| pp.Bold
        StructName := pp.White ||| pp.Bold
        Bool := pp.Yellow ||| pp.Bold
        Float := pp.Magenta ||| pp.Bold
        EscapedChar := pp.Magenta ||| pp.Bold
        PointerAdress := pp.Cyan ||| pp.Bold
        Nil := pp.Yellow ||| pp.Bold
        Time := pp.Cyan ||| pp.Bold
        ObjectLength := pp.Cyan } : pp.ColorScheme)
  else
    return (
      { String := pp.Green
        StringQuotation := pp.Green ||| pp.Bold
        FieldName := pp.White
        Integer := pp.Blue ||| pp.Bold
        StructName := pp.NoColor
        Bool := pp.Cyan ||| pp.Bold
        Float := pp.Magenta ||| pp.Bold
        EscapedChar := pp.Magenta ||| pp.Bold
        PointerAdress := pp.Blue ||| pp.Bold
        Nil := pp.Cyan ||| pp.Bold
        Time := pp.Blue ||| pp.Bold
        ObjectLength := pp.Blue } : pp.ColorScheme)

/-- Go: `GetFailingColorScheme`, as a computation on the world. -/
def Stateful.GetFailingColorScheme : StateM World pp.ColorScheme := do
  if (← get).vars.IsAnsiDisabled then
    return defaultColorScheme
  else if (← get).vars.CurrentTheme = ThemeDark then
    return (
      { Bool := pp.Yellow ||| pp.Bold
        Integer := pp.Cyan ||| pp.Bold
        Float := pp.Magenta ||| pp.Bold
        String := pp.Red ||| pp.Bold
        StringQuotation := pp.Red ||| pp.Bold
        EscapedChar := pp.Magenta ||| pp.Bold
        FieldName := pp.Yellow ||| pp.Bold
        PointerAdress := pp.Cyan ||| pp.Bold
        Nil := pp.Yellow ||| pp.Bold
        Time := pp.Cyan ||| pp.Bold
        StructName := pp.White ||| pp.Bold
        ObjectLength := pp.Cyan } : pp.ColorScheme)
  else
    return (
      { Bool := pp.Cyan ||| pp.Bold
        Integer := pp.Blue ||| pp.Bold
        Float := pp.Magenta ||| pp.Bold
        String := pp.Red
        StringQuotation := pp.Red ||| pp.Bold
        EscapedChar := pp.Magenta ||| pp.Bold
        FieldName := pp.Yellow
        PointerAdress := pp.Blue ||| pp.Bold
        Nil := pp.Cyan ||| pp.Bold
        Time := pp.Blue ||| pp.Bold
        StructName := pp.White
        ObjectLength := pp.Blue } : pp.ColorScheme)

/-- One call, as a computation on the world. -/
def call : Call → StateM World CallResult
  | .HighlightString a => do return .text (← Stateful.HighlightString a)
  | .HighlightPassingString a => do return .text (← Stateful.HighlightPassingString a)
  | .HighlightFailingString a => do return .text (← Stateful.HighlightFailingString a)
  | .HighlightGrayString a => do return .text (← Stateful.HighlightGrayString a)
  | .GetPassingColorScheme => do return .scheme (← Stateful.GetPassingColorScheme)
  | .GetFailingColorScheme => do return .scheme (← Stateful.GetFailingColorScheme)

/-- A sequence of calls, one after the other, each on the world the one before left. -/
def calls : List Call → StateM World (List CallResult)
  | [] => return []
  | c :: cs => do
    let r ← call c
    let rs ← calls cs
    return r :: rs

/-- The value of a call as the functions of the package variables give it. -/
def callValue (env : color.Env) (c : Call) (st : State) : CallResult :=
  match c with
  | .HighlightString a => .text (HighlightString env st a)
  | .HighlightPassingString a => .text (HighlightPassingString env st a)
  | .HighlightFailingString a => .text (HighlightFailingString env st a)
  | .HighlightGrayString a => .text (HighlightGrayString env st a)
  | .GetPassingColorScheme => .scheme (GetPassingColorScheme st)
  | .GetFailingColorScheme => .scheme (GetFailingColorScheme st)

/-- Whether the colour library writes no escape sequences: `NO_COLOR` is set or
`color.NoColor` is true. -/
def color.Env.off (env : color.Env) : Bool := env.noColorIsSet || env.NoColor

/-- A sequence of `Set` calls on one `Language` variable that starts as `e`: the value
at the end and the returned errors in order. -/
def setSequence (e : Language) : List String → Language × List (Option String)
  | [] => (e, [])
  | v :: vs =>
    let r := Language.Set e v
    let rs := setSequence r.1 vs
    (rs.1, r.2 :: rs.2)

/-! ## The `Language` setter -/

theorem Set_eq_of_accepted (e : Language) (v : String)
    (h : v = "go" ∨ v = "java" ∨ v = "python" ∨ v = "javascript") :
    Language.Set e v = (v, none) := by
  unfold Language.Set
  rw [if_pos h]

theorem Set_eq_of_rejected (e : Language) (v : String)
    (h : ¬ (v = "go" ∨ v = "java" ∨ v = "python" ∨ v = "javascript")) :
    Language.Set e v = (e, some invalidLanguageMessage) := by
  unfold Language.Set
  rw [if_neg h]

theorem mem_accepted_iff (v : String) :
    v ∈ ["go", "java", "python", "javascript"] ↔
      (v = "go" ∨ v = "java" ∨ v = "python" ∨ v = "javascript") := by
  simp

/-- Claim C1: `Set(v)` returns an error exactly when `v` is none of "go", "java",
"python", "javascript", and when it returns an error the stored value is the one from
before the call; after a successful `Set("go")`, `Set("ruby")` fails and `String()`
still returns "go". -/
theorem Language_Set_error_iff_not_accepted (e : Language) (v : String) :
    ((Language.Set e v).2 ≠ none ↔ v ∉ ["go", "java", "python", "javascript"]) ∧
    ((Language.Set e v).2 ≠ none → (Language.Set e v).1 = e) ∧
    ((Language.Set e "go").2 = none ∧
      (Language.Set (Language.Set e "go").1 "ruby").2 ≠ none ∧
      Language.String (Language.Set (Language.Set e "go").1 "ruby").1 = "go") := by
  refine ⟨?_, ?_, ?_⟩
  · rw [mem_accepted_iff]
    by_cases h : v = "go" ∨ v = "java" ∨ v = "python" ∨ v = "javascript"
    · rw [Set_eq_of_accepted e v h]
      simp [h]
    · rw [Set_eq_of_rejected e v h]
      simp [h]
  · by_cases h : v = "go" ∨ v = "java" ∨ v = "python" ∨ v = "javascript"
    · rw [Set_eq_of_accepted e v h]
      simp
    · rw [Set_eq_of_rejected e v h]
      simp
  · rw [Set_eq_of_accepted e "go" (Or.inl rfl)]
    rw [Set_eq_of_rejected "go" "ruby" (by decide)]
    simp [Language.String]

theorem Language_Set_error_iff_not_accepted_witness :
    (Language.Set Java "ruby").2 ≠ none ∧ (Language.Set Java "ruby").1 = Java :=
  ⟨by decide, (Language_Set_error_iff_not_accepted Java "ruby").2.1 (by decide)⟩

/-- Claim C2: for every prior value and every `v` among "go", "java", "python",
"javascript", `Set(v)` returns nil and a following `String()` returns `v`. -/
theorem Language_Set_String_roundtrip (e : Language) (v : String)
    (hv : v ∈ ["go", "java", "python", "javascript"]) :
    (Language.Set e v).2 = none ∧ Language.String (Language.Set e v).1 = v := by
  rw [Set_eq_of_accepted e v ((mem_accepted_iff v).1 hv)]
  exact ⟨rfl, rfl⟩

theorem Language_Set_String_roundtrip_witness :
    "python" ∈ ["go", "java", "python", "javascript"] ∧
      (Language.Set Unknown "python").2 = none ∧
      Language.String (Language.Set Unknown "python").1 = "python" :=
  ⟨by decide, Language_Set_String_roundtrip Unknown "python" (by decide)⟩

/-! ## What the error message of `Set` lists -/

theorem mem_tokensAt_iff (t w : List Char) :
    w ∈ tokensAt t ↔ (w ++ [Char.ofNat 34] <+: t ∧ Char.ofNat 32 ∉ w) := by
  induction t generalizing w with
  | nil =>
    simp [tokensAt]
  | cons c t ih =>
    constructor
    · intro h
      simp only [tokensAt, List.mem_append] at h
      rcases h with h | h
      · split_ifs at h with hc
        · have hw : w = [] := by simpa using h
          subst hw
          subst hc
          simp [List.cons_prefix_cons]
        · simp at h
      · split_ifs at h with hs
        · simp at h
        · obtain ⟨u, hu, rfl⟩ := List.mem_map.1 h
          obtain ⟨h1, h2⟩ := (ih u).1 hu
          refine ⟨?_, ?_⟩
          · rw [List.cons_append, List.cons_prefix_cons]
            exact ⟨rfl, h1⟩
          · intro hmem
            rcases List.mem_cons.1 hmem with h3 | h3
            · exact hs h3.symm
            · exact h2 h3
    · rintro ⟨hp, hn⟩
      cases w with
      | nil =>
        have hc : Char.ofNat 34 = c := by
          rw [List.nil_append, List.cons_prefix_cons] at hp
          exact hp.1
        simp only [tokensAt, List.mem_append]
        left
        rw [if_pos hc.symm]
        exact List.mem_singleton.2 rfl
      | cons d u =>
        rw [List.cons_append, List.cons_prefix_cons] at hp
        obtain ⟨hd, hp⟩ := hp
        subst hd
        have hs : ¬ d = Char.ofNat 32 := fun h => hn (by rw [h]; exact List.mem_cons_self _ _)
        have hu : Char.ofNat 32 ∉ u := fun h => hn (List.mem_cons_of_mem _ h)
        simp only [tokensAt, List.mem_append]
        right
        rw [if_neg hs]
        exact List.mem_map.2 ⟨u, (ih u).2 ⟨hp, hu⟩, rfl⟩

theorem mem_quotedAt_iff (t w : List Char) :
    w ∈ quotedAt t ↔
      (Char.ofNat 34 :: (w ++ [Char.ofNat 34]) <+: t ∧ Char.ofNat 32 ∉ w) := by
  cases t with
  | nil => simp [quotedAt]
  | cons c t =>
    rw [List.cons_prefix_cons]
    by_cases hc : c = Char.ofNat 34
    · subst hc
      simp [quotedAt, mem_tokensAt_iff]
    · have hc' : ¬ Char.ofNat 34 = c := fun h => hc h.symm
      simp [quotedAt, hc, hc']

theorem mem_quotedIn_iff (m w : List Char) :
    w ∈ quotedIn m ↔
      (Char.ofNat 34 :: (w ++ [Char.ofNat 34]) <:+: m ∧ Char.ofNat 32 ∉ w) := by
  unfold quotedIn
  rw [List.mem_flatMap, List.infix_iff_prefix_suffix]
  constructor
  · rintro ⟨t, ht, hw⟩
    obtain ⟨h1, h2⟩ := (mem_quotedAt_iff t w).1 hw
    exact ⟨⟨t, h1, (List.mem_tails t m).1 ht⟩, h2⟩
  · rintro ⟨⟨t, h1, ht⟩, h2⟩
    exact ⟨t, (List.mem_tails t m).2 ht, (mem_quotedAt_iff t w).2 ⟨h1, h2⟩⟩

theorem quoted_toList (w : String) :
    (quoted w).toList = Char.ofNat 34 :: (w.toList ++ [Char.ofNat 34]) := by
  simp [quoted, String.toList]

theorem quotedIn_invalidLanguageMessage :
    quotedIn invalidLanguageMessage.toList =
      ["go".toList, "java".toList, "python".toList, "javascript".toList] := by
  decide

theorem accepted_iff_listed (w : String) :
    (w = "go" ∨ w = "java" ∨ w = "python" ∨ w = "javascript") ↔
      (Char.ofNat 32 ∉ w.toList ∧ occursIn (quoted w) invalidLanguageMessage) := by
  unfold occursIn
  rw [quoted_toList, and_comm, ← mem_quotedIn_iff, quotedIn_invalidLanguageMessage]
  simp only [List.mem_cons, List.mem_singleton, List.not_mem_nil, or_false]
  have h : ∀ s : String, w = s ↔ w.toList = s.toList := fun s => String.ext_iff
  rw [h "go", h "java", h "python", h "javascript"]

/-- Claim C3, as the code has it: a string `w` is accepted by `Set` exactly when it
holds no blank and its quoted form occurs in the message that `Set` returns on a
rejection. -/
theorem Language_Set_accepts_iff_listed (e e' : Language) (v w m : String)
    (hm : (Language.Set e' v).2 = some m) :
    (Language.Set e w).2 = none ↔ (Char.ofNat 32 ∉ w.toList ∧ occursIn (quoted w) m) := by
  have hmsg : m = invalidLanguageMessage := by
    by_cases h : v = "go" ∨ v = "java" ∨ v = "python" ∨ v = "javascript"
    · rw [Set_eq_of_accepted e' v h] at hm
      exact absurd hm (by simp)
    · rw [Set_eq_of_rejected e' v h] at hm
      exact (Option.some.inj hm).symm
  subst hmsg
  rw [← accepted_iff_listed]
  by_cases h : w = "go" ∨ w = "java" ∨ w = "python" ∨ w = "javascript"
  · rw [Set_eq_of_accepted e w h]
    simp [h]
  · rw [Set_eq_of_rejected e w h]
    simp [h]

theorem Language_Set_accepts_iff_listed_witness :
    (Language.Set Go "ruby").2 = some invalidLanguageMessage ∧
      ((Language.Set Unknown "java").2 = none ↔
        (Char.ofNat 32 ∉ "java".toList ∧ occursIn (quoted "java") invalidLanguageMessage)) :=
  ⟨by decide,
    Language_Set_accepts_iff_listed Unknown Go "ruby" "java" invalidLanguageMessage (by decide)⟩

/-- Claim C3 as stated fails: `Set(", ")` is rejected, yet the quoted form of the
separator `, ` occurs in the message of the rejection (between "go" and "java"). -/
theorem Language_Set_message_quotes_separator :
    (Language.Set Go ", ").2 = some invalidLanguageMessage ∧
      occursIn (quoted ", ") invalidLanguageMessage ∧
      ¬ ((Language.Set Go ", ").2 = none ↔
          occursIn (quoted ", ") invalidLanguageMessage) := by
  decide

/-! ## The highlighters -/

theorem fmt.Sprint_single (x : GoValue) : fmt.Sprint [x] = fmt.formatV x := by
  simp [fmt.Sprint, fmt.doPrint]

theorem fmt.Sprint_slice (a : List GoValue) :
    fmt.Sprint [GoValue.slice a] = "[" ++ fmt.formatElems a ++ "]" := by
  rw [fmt.Sprint_single, fmt.formatV]

theorem hasESC_append (s t : String) : hasESC (s ++ t) ↔ hasESC s ∨ hasESC t := by
  simp [hasESC, String.toList]

theorem not_hasESC_formatElems (a : List GoValue)
    (h : ∀ x ∈ a, ¬ hasESC (fmt.formatV x)) : ¬ hasESC (fmt.formatElems a) := by
  induction a with
  | nil =>
    rw [fmt.formatElems]
    decide
  | cons x xs ih =>
    cases xs with
    | nil =>
      rw [fmt.formatElems]
      exact h x (List.mem_cons_self _ _)
    | cons y ys =>
      rw [fmt.formatElems, hasESC_append, hasESC_append]
      have hx := h x (List.mem_cons_self _ _)
      have hr := ih (fun z hz => h z (List.mem_cons_of_mem _ hz))
      have hb : ¬ hasESC " " := by decide
      tauto

theorem not_hasESC_Sprint_slice (a : List GoValue)
    (h : ∀ x ∈ a, ¬ hasESC (fmt.formatV x)) : ¬ hasESC (fmt.Sprint [GoValue.slice a]) := by
  rw [fmt.Sprint_slice, hasESC_append, hasESC_append]
  have h1 : ¬ hasESC "[" := by decide
  have h2 : ¬ hasESC "]" := by decide
  have h3 := not_hasESC_formatElems a h
  tauto

theorem HighlightString_disabled (env : color.Env) (t : Theme) (a : List GoValue) :
    HighlightString env ⟨t, true⟩ a = fmt.Sprint [GoValue.slice a] := by
  simp [HighlightString]

theorem HighlightPassingString_disabled (env : color.Env) (t : Theme) (a : List GoValue) :
    HighlightPassingString env ⟨t, true⟩ a = fmt.Sprint [GoValue.slice a] := by
  simp [HighlightPassingString]

theorem HighlightFailingString_disabled (env : color.Env) (t : Theme) (a : List GoValue) :
    HighlightFailingString env ⟨t, true⟩ a = fmt.Sprint [GoValue.slice a] := by
  simp [HighlightFailingString]

theorem HighlightGrayString_disabled (env : color.Env) (t : Theme) (a : List GoValue) :
    HighlightGrayString env ⟨t, true⟩ a = fmt.Sprint [GoValue.slice a] := by
  simp [HighlightGrayString]

/-- Claim C4: with ANSI disabled every highlighter returns `fmt.Sprint` of its
argument slice, whatever the theme; the four categories and any two themes give the
same string, and that string holds no escape character when the stringification of
no argument holds one. -/
theorem Highlight_plain_when_ansi_disabled (env env' : color.Env) (t t' : Theme)
    (a : List GoValue) :
    (HighlightString env ⟨t, true⟩ a = fmt.Sprint [GoValue.slice a] ∧
      HighlightPassingString env ⟨t, true⟩ a = fmt.Sprint [GoValue.slice a] ∧
      HighlightFailingString env ⟨t, true⟩ a = fmt.Sprint [GoValue.slice a] ∧
      HighlightGrayString env ⟨t, true⟩ a = fmt.Sprint [GoValue.slice a]) ∧
    (HighlightString env' ⟨t', true⟩ a = HighlightString env ⟨t, true⟩ a ∧
      HighlightPassingString env' ⟨t', true⟩ a = HighlightString env ⟨t, true⟩ a ∧
      HighlightFailingString env' ⟨t', true⟩ a = HighlightString env ⟨t, true⟩ a ∧
      HighlightGrayString env' ⟨t', true⟩ a = HighlightString env ⟨t, true⟩ a) ∧
    ((∀ x ∈ a, ¬ hasESC (fmt.formatV x)) →
      ¬ hasESC (HighlightString env ⟨t, true⟩ a) ∧
      ¬ hasESC (HighlightPassingString env ⟨t, true⟩ a) ∧
      ¬ hasESC (HighlightFailingString env ⟨t, true⟩ a) ∧
      ¬ hasESC (HighlightGrayString env ⟨t, true⟩ a)) := by
  simp only [HighlightString_disabled, HighlightPassingString_disabled,
    HighlightFailingString_disabled, HighlightGrayString_disabled, and_self, true_and]
  exact not_hasESC_Sprint_slice a

theorem Highlight_plain_when_ansi_disabled_witness :
    (∀ x ∈ [GoValue.str "x", GoValue.int 7], ¬ hasESC (fmt.formatV x)) ∧
      ¬ hasESC (HighlightGrayString ⟨false, false⟩ ⟨ThemeDark, true⟩
        [GoValue.str "x", GoValue.int 7]) :=
  ⟨by decide,
    ((Highlight_plain_when_ansi_disabled ⟨false, false⟩ ⟨false, false⟩ ThemeDark ThemeLight
      [GoValue.str "x", GoValue.int 7]).2.2 (by decide)).2.2.2⟩

/-- Claim C5, evaluated on the code: with ANSI disabled `HighlightFailingString("x", "y")`
returns `[x y]`, not `x y`; for every argument list the result is the space-joined
elements between square brackets. -/
theorem HighlightFailingString_disabled_brackets (env : color.Env) (t : Theme) :
    HighlightFailingString env ⟨t, true⟩ [GoValue.str "x", GoValue.str "y"] = "[x y]" ∧
    HighlightFailingString env ⟨t, true⟩ [GoValue.str "x", GoValue.str "y"] ≠ "x y" ∧
    ∀ a : List GoValue,
      HighlightFailingString env ⟨t, true⟩ a = "[" ++ fmt.formatElems a ++ "]" := by
  refine ⟨?_, ?_, ?_⟩
  · rw [HighlightFailingString_disabled]
    decide
  · rw [HighlightFailingString_disabled]
    decide
  · intro a
    rw [HighlightFailingString_disabled, fmt.Sprint_slice]

theorem SprintFunc_colour_on (env : color.Env) (ps : List color.Attribute)
    (a : List GoValue) (h1 : env.NoColor = false) (h2 : env.noColorIsSet = false) :
    (color.New env ps).SprintFunc env a =
      (color.New env ps).format ++ fmt.Sprint a ++ (color.New env ps).unformat := by
  simp [color.Color.SprintFunc, color.Color.wrap, color.Color.isNoColorSet, color.New, h1, h2]

theorem format_New (env : color.Env) (ps : List color.Attribute) :
    (color.New env ps).format =
      ESC.toString ++ "[" ++ ";".intercalate (ps.map fun v => toString v) ++ "m" := by
  simp [color.Color.format, color.Color.sequence, color.New]

theorem append_ne_of_take_ne (n : Nat) (p q r s : String) (hp : n ≤ p.toList.length)
    (hq : n ≤ q.toList.length) (h : p.toList.take n ≠ q.toList.take n) :
    p ++ r ≠ q ++ s := by
  intro he
  apply h
  have h' := congrArg (fun u : String => u.toList.take n) he
  simp only [String.toList, String.data_append] at h' hp hq ⊢
  rw [List.take_append_of_le_length hp, List.take_append_of_le_length hq] at h'
  exact h'

/-- Claim C6: with ANSI enabled and the colour library switched on, every highlighter
opens its output with the SGR sequence of the decision table, followed by the text and
the closing sequence of the same attribute: Light gives 38;5;208, 32, 31, 90 and Dark
gives 96, 92, 91, 37 for neutral, passing, failing, muted; in each theme the neutral
output differs from the passing and from the failing output. -/
theorem Highlight_attribute_table (env : color.Env) (a : List GoValue)
    (h1 : env.NoColor = false) (h2 : env.noColorIsSet = false) :
    (HighlightString env ⟨ThemeLight, false⟩ a =
        "\x1b[38;5;208m" ++ fmt.Sprint [GoValue.slice a] ++
          (color.New env [38, 5, 208]).unformat ∧
      HighlightPassingString env ⟨ThemeLight, false⟩ a =
        "\x1b[32m" ++ fmt.Sprint [GoValue.slice a] ++ (color.New env [32]).unformat ∧
      HighlightFailingString env ⟨ThemeLight, false⟩ a =
        "\x1b[31m" ++ fmt.Sprint [GoValue.slice a] ++ (color.New env [31]).unformat ∧
      HighlightGrayString env ⟨ThemeLight, false⟩ a =
        "\x1b[90m" ++ fmt.Sprint [GoValue.slice a] ++ (color.New env [90]).unformat) ∧
    (HighlightString env ⟨ThemeDark, false⟩ a =
        "\x1b[96m" ++ fmt.Sprint [GoValue.slice a] ++ (color.New env [96]).unformat ∧
      HighlightPassingString env ⟨ThemeDark, false⟩ a =
        "\x1b[92m" ++ fmt.Sprint [GoValue.slice a] ++ (color.New env [92]).unformat ∧
      HighlightFailingString env ⟨ThemeDark, false⟩ a =
        "\x1b[91m" ++ fmt.Sprint [GoValue.slice a] ++ (color.New env [91]).unformat ∧
      HighlightGrayString env ⟨ThemeDark, false⟩ a =
        "\x1b[37m" ++ fmt.Sprint [GoValue.slice a] ++ (color.New env [37]).unformat) ∧
    (HighlightString env ⟨ThemeLight, false⟩ a ≠
        HighlightPassingString env ⟨ThemeLight, false⟩ a ∧
      HighlightString env ⟨ThemeLight, false⟩ a ≠
        HighlightFailingString env ⟨ThemeLight, false⟩ a ∧
      HighlightString env ⟨ThemeDark, false⟩ a ≠
        HighlightPassingString env ⟨ThemeDark, false⟩ a ∧
      HighlightString env ⟨ThemeDark, false⟩ a ≠
        HighlightFailingString env ⟨ThemeDark, false⟩ a) := by
  have hl : ¬ ThemeLight = ThemeDark := by decide
  have e1 : HighlightString env ⟨ThemeLight, false⟩ a =
      "\x1b[38;5;208m" ++ fmt.Sprint [GoValue.slice a] ++
        (color.New env [38, 5, 208]).unformat := by
    simp only [HighlightString, hl, if_false, Bool.false_eq_true, orangeColorSGR]
    rw [SprintFunc_colour_on env _ _ h1 h2, format_New]
    rfl
  have e2 : HighlightPassingString env ⟨ThemeLight, false⟩ a =
      "\x1b[32m" ++ fmt.Sprint [GoValue.slice a] ++ (color.New env [32]).unformat := by
    simp only [HighlightPassingString, hl, if_false, Bool.false_eq_true]
    rw [SprintFunc_colour_on env _ _ h1 h2, format_New]
    rfl
  have e3 : HighlightFailingString env ⟨ThemeLight, false⟩ a =
      "\x1b[31m" ++ fmt.Sprint [GoValue.slice a] ++ (color.New env [31]).unformat := by
    simp only [HighlightFailingString, hl, if_false, Bool.false_eq_true]
    rw [SprintFunc_colour_on env _ _ h1 h2, format_New]
    rfl
  have e4 : HighlightGrayString env ⟨ThemeLight, false⟩ a =
      "\x1b[90m" ++ fmt.Sprint [GoValue.slice a] ++ (color.New env [90]).unformat := by
    simp only [HighlightGrayString, hl, if_false, Bool.false_eq_true]
    rw [SprintFunc_colour_on env _ _ h1 h2, format_New]
    rfl
  have e5 : HighlightString env ⟨ThemeDark, false⟩ a =
      "\x1b[96m" ++ fmt.Sprint [GoValue.slice a] ++ (color.New env [96]).unformat := by
    simp only [HighlightString, if_true, if_false, Bool.false_eq_true]
    rw [SprintFunc_colour_on env _ _ h1 h2, format_New]
    rfl
  have e6 : HighlightPassingString env ⟨ThemeDark, false⟩ a =
      "\x1b[92m" ++ fmt.Sprint [GoValue.slice a] ++ (color.New env [92]).unformat := by
    simp only [HighlightPassingString, if_true, if_false, Bool.false_eq_true]
    rw [SprintFunc_colour_on env _ _ h1 h2, format_New]
    rfl
  have e7 : HighlightFailingString env ⟨ThemeDark, false⟩ a =
      "\x1b[91m" ++ fmt.Sprint [GoValue.slice a] ++ (color.New env [91]).unformat := by
    simp only [HighlightFailingString, if_true, if_false, Bool.false_eq_true]
    rw [SprintFunc_colour_on env _ _ h1 h2, format_New]
    rfl
  have e8 : HighlightGrayString env ⟨ThemeDark, false⟩ a =
      "\x1b[37m" ++ fmt.Sprint [GoValue.slice a] ++ (color.New env [37]).unformat := by
    simp only [HighlightGrayString, if_true, if_false, Bool.false_eq_true]
    rw [SprintFunc_colour_on env _ _ h1 h2, format_New]
    rfl
  refine ⟨⟨e1, e2, e3, e4⟩, ⟨e5, e6, e7, e8⟩, ?_, ?_, ?_, ?_⟩
  · rw [e1, e2, String.append_assoc, String.append_assoc]
    exact append_ne_of_take_ne 4 _ _ _ _ (by decide) (by decide) (by decide)
  · rw [e1, e3, String.append_assoc, String.append_assoc]
    exact append_ne_of_take_ne 4 _ _ _ _ (by decide) (by decide) (by decide)
  · rw [e5, e6, String.append_assoc, String.append_assoc]
    exact append_ne_of_take_ne 4 _ _ _ _ (by decide) (by decide) (by decide)
  · rw [e5, e7, String.append_assoc, String.append_assoc]
    exact append_ne_of_take_ne 4 _ _ _ _ (by decide) (by decide) (by decide)

theorem Highlight_attribute_table_witness :
    HighlightString ⟨false, false⟩ ⟨ThemeLight, false⟩ [GoValue.int 42] =
      "\x1b[38;5;208m" ++ fmt.Sprint [GoValue.slice [GoValue.int 42]] ++
        (color.New ⟨false, false⟩ [38, 5, 208]).unformat :=
  (Highlight_attribute_table ⟨false, false⟩ [GoValue.int 42] rfl rfl).1.1

/-- Claim C7, evaluated on the code: with theme Dark, ANSI enabled and the colour
library switched on, `HighlightPassingString("ok")` returns the bright-green opening
sequence, then `[ok]`, then the reset sequence; the text between the two sequences is
`[ok]`, not `ok`. -/
theorem HighlightPassingString_dark_ok :
    HighlightPassingString ⟨false, false⟩ ⟨ThemeDark, false⟩ [GoValue.str "ok"] =
        "\x1b[92m" ++ "[ok]" ++ "\x1b[0m" ∧
      HighlightPassingString ⟨false, false⟩ ⟨ThemeDark, false⟩ [GoValue.str "ok"] ≠
        "\x1b[92m" ++ "ok" ++ "\x1b[0m" := by
  decide

/-! ## The colour schemes -/

/-- Claim C8: with ANSI disabled, for every theme, `GetPassingColorScheme` and
`GetFailingColorScheme` return the same scheme, and each of its twelve value kinds is
`pp.NoColor`; the theme is not looked at. -/
theorem ColorScheme_no_colour_when_ansi_disabled (t : Theme) :
    GetPassingColorScheme ⟨t, true⟩ = GetFailingColorScheme ⟨t, true⟩ ∧
    GetPassingColorScheme ⟨t, true⟩ = defaultColorScheme ∧
    (GetPassingColorScheme ⟨t, true⟩).Bool = pp.NoColor ∧
    (GetPassingColorScheme ⟨t, true⟩).Integer = pp.NoColor ∧
    (GetPassingColorScheme ⟨t, true⟩).Float = pp.NoColor ∧
    (GetPassingColorScheme ⟨t, true⟩).String = pp.NoColor ∧
    (GetPassingColorScheme ⟨t, true⟩).StringQuotation = pp.NoColor ∧
    (GetPassingColorScheme ⟨t, true⟩).EscapedChar = pp.NoColor ∧
    (GetPassingColorScheme ⟨t, true⟩).FieldName = pp.NoColor ∧
    (GetPassingColorScheme ⟨t, true⟩).PointerAdress = pp.NoColor ∧
    (GetPassingColorScheme ⟨t, true⟩).Nil = pp.NoColor ∧
    (GetPassingColorScheme ⟨t, true⟩).Time = pp.NoColor ∧
    (GetPassingColorScheme ⟨t, true⟩).StructName = pp.NoColor ∧
    (GetPassingColorScheme ⟨t, true⟩).ObjectLength = pp.NoColor := by
  have hp : GetPassingColorScheme ⟨t, true⟩ = defaultColorScheme := by
    simp [GetPassingColorScheme]
  have hf : GetFailingColorScheme ⟨t, true⟩ = defaultColorScheme := by
    simp [GetFailingColorScheme]
  rw [hp, hf]
  simp [defaultColorScheme]

/-- Claim C9: with ANSI enabled, the passing scheme under theme Light differs from the
passing scheme under theme Dark in at least one of the twelve value kinds, and so do
the two failing schemes. -/
theorem ColorScheme_themes_differ :
    (∃ i, i < 12 ∧ (GetPassingColorScheme ⟨ThemeLight, false⟩).kinds[i]? ≠
        (GetPassingColorScheme ⟨ThemeDark, false⟩).kinds[i]?) ∧
    (∃ i, i < 12 ∧ (GetFailingColorScheme ⟨ThemeLight, false⟩).kinds[i]? ≠
        (GetFailingColorScheme ⟨ThemeDark, false⟩).kinds[i]?) := by
  exact ⟨⟨3, by decide, by decide⟩, ⟨3, by decide, by decide⟩⟩

/-- Claim C10: in each of the four presets that are returned with ANSI enabled
(passing and failing, Light and Dark) the attributes of FieldName, String and
StructName are pairwise different. -/
theorem ColorScheme_field_string_struct_distinct :
    ((GetPassingColorScheme ⟨ThemeLight, false⟩).FieldName ≠ (GetPassingColorScheme ⟨ThemeLight, false⟩).String ∧
      (GetPassingColorScheme ⟨ThemeLight, false⟩).FieldName ≠ (GetPassingColorScheme ⟨ThemeLight, false⟩).StructName ∧
      (GetPassingColorScheme ⟨ThemeLight, false⟩).String ≠ (GetPassingColorScheme ⟨ThemeLight, false⟩).StructName) ∧
    ((GetPassingColorScheme ⟨ThemeDark, false⟩).FieldName ≠ (GetPassingColorScheme ⟨ThemeDark, false⟩).String ∧
      (GetPassingColorScheme ⟨ThemeDark, false⟩).FieldName ≠ (GetPassingColorScheme ⟨ThemeDark, false⟩).StructName ∧
      (GetPassingColorScheme ⟨ThemeDark, false⟩).String ≠ (GetPassingColorScheme ⟨ThemeDark, false⟩).StructName) ∧
    ((GetFailingColorScheme ⟨ThemeLight, false⟩).FieldName ≠ (GetFailingColorScheme ⟨ThemeLight, false⟩).String ∧
      (GetFailingColorScheme ⟨ThemeLight, false⟩).FieldName ≠ (GetFailingColorScheme ⟨ThemeLight, false⟩).StructName ∧
      (GetFailingColorScheme ⟨ThemeLight, false⟩).String ≠ (GetFailingColorScheme ⟨ThemeLight, false⟩).StructName) ∧
    ((GetFailingColorScheme ⟨ThemeDark, false⟩).FieldName ≠ (GetFailingColorScheme ⟨ThemeDark, false⟩).String ∧
      (GetFailingColorScheme ⟨ThemeDark, false⟩).FieldName ≠ (GetFailingColorScheme ⟨ThemeDark, false⟩).StructName ∧
      (GetFailingColorScheme ⟨ThemeDark, false⟩).String ≠ (GetFailingColorScheme ⟨ThemeDark, false⟩).StructName) := by
  decide

/-! ## The initial state, call sequences and unrecognised themes -/

theorem HighlightString_light_colour_on (env : color.Env) (t : Theme) (a : List GoValue)
    (ht : t ≠ ThemeDark) (h1 : env.NoColor = false) (h2 : env.noColorIsSet = false) :
    HighlightString env ⟨t, false⟩ a =
      "\x1b[38;5;208m" ++ fmt.Sprint [GoValue.slice a] ++
        (color.New env [38, 5, 208]).unformat := by
  simp only [HighlightString, ht, if_false, Bool.false_eq_true, orangeColorSGR]
  rw [SprintFunc_colour_on env _ _ h1 h2, format_New]
  rfl

/-- Claim C11: the package variables start as `CurrentTheme = ThemeLight` and
`IsAnsiDisabled = false`; in that state the two getters return the Light presets
(String is `pp.Green` resp. `pp.Red`) and, with the colour library switched on,
`HighlightString` opens its output with the SGR sequence 38;5;208. -/
theorem initial_state_is_light_with_ansi (env : color.Env) (a : List GoValue)
    (h1 : env.NoColor = false) (h2 : env.noColorIsSet = false) :
    State.initial.CurrentTheme = ThemeLight ∧
    State.initial.IsAnsiDisabled = false ∧
    (GetPassingColorScheme State.initial).String = pp.Green ∧
    (GetFailingColorScheme State.initial).String = pp.Red ∧
    (GetPassingColorScheme State.initial).kinds =
      [pp.Cyan ||| pp.Bold, pp.Blue ||| pp.Bold, pp.Magenta ||| pp.Bold, pp.Green,
        pp.Green ||| pp.Bold, pp.Magenta ||| pp.Bold, pp.White, pp.Blue ||| pp.Bold,
        pp.Cyan ||| pp.Bold, pp.Blue ||| pp.Bold, pp.NoColor, pp.Blue] ∧
    (GetFailingColorScheme State.initial).kinds =
      [pp.Cyan ||| pp.Bold, pp.Blue ||| pp.Bold, pp.Magenta ||| pp.Bold, pp.Red,
        pp.Red ||| pp.Bold, pp.Magenta ||| pp.Bold, pp.Yellow, pp.Blue ||| pp.Bold,
        pp.Cyan ||| pp.Bold, pp.Blue ||| pp.Bold, pp.White, pp.Blue] ∧
    HighlightString env State.initial a =
      "\x1b[38;5;208m" ++ fmt.Sprint [GoValue.slice a] ++
        (color.New env [38, 5, 208]).unformat := by
  refine ⟨rfl, rfl, by decide, by decide, by decide, by decide, ?_⟩
  exact HighlightString_light_colour_on env ThemeLight a (by decide) h1 h2

theorem initial_state_is_light_with_ansi_witness :
    HighlightString ⟨false, false⟩ State.initial [GoValue.str "42"] =
      "\x1b[38;5;208m" ++ fmt.Sprint [GoValue.slice [GoValue.str "42"]] ++
        (color.New ⟨false, false⟩ [38, 5, 208]).unformat :=
  (initial_state_is_light_with_ansi ⟨false, false⟩ [GoValue.str "42"] rfl rfl).2.2.2.2.2.2

theorem colorSprint_run (ps : List color.Attribute) (a : List GoValue) (w : World) :
    (Stateful.colorSprint ps a).run w = ((color.New w.lib ps).SprintFunc w.lib a, w) := by
  simp [Stateful.colorSprint, StateT.run, bind, StateT.bind, get, getThe, MonadStateOf.get,
    StateT.get, pure, StateT.pure]

theorem Stateful_HighlightString_run (a : List GoValue) (w : World) :
    (Stateful.HighlightString a).run w = (HighlightString w.lib w.vars a, w) := by
  have hc := colorSprint_run
  simp only [StateT.run] at hc
  by_cases h1 : w.vars.IsAnsiDisabled = true
  · simp [Stateful.HighlightString, HighlightString, StateT.run, bind, StateT.bind, get,
      getThe, MonadStateOf.get, StateT.get, pure, StateT.pure, h1]
  · by_cases h2 : w.vars.CurrentTheme = ThemeDark
    · simp [Stateful.HighlightString, HighlightString, StateT.run, bind, StateT.bind, get,
        getThe, MonadStateOf.get, StateT.get, pure, StateT.pure, h1, h2, hc]
    · simp [Stateful.HighlightString, HighlightString, StateT.run, bind, StateT.bind, get,
        getThe, MonadStateOf.get, StateT.get, pure, StateT.pure, h1, h2, hc]

theorem Stateful_HighlightPassingString_run (a : List GoValue) (w : World) :
    (Stateful.HighlightPassingString a).run w = (HighlightPassingString w.lib w.vars a, w) := by
  have hc := colorSprint_run
  simp only [StateT.run] at hc
  by_cases h1 : w.vars.IsAnsiDisabled = true
  · simp [Stateful.HighlightPassingString, HighlightPassingString, StateT.run, bind, StateT.bind, get,
      getThe, MonadStateOf.get, StateT.get, pure, StateT.pure, h1]
  · by_cases h2 : w.vars.CurrentTheme = ThemeDark
    · simp [Stateful.HighlightPassingString, HighlightPassingString, StateT.run, bind, StateT.bind, get,
        getThe, MonadStateOf.get, StateT.get, pure, StateT.pure, h1, h2, hc]
    · simp [Stateful.HighlightPassingString, HighlightPassingString, StateT.run, bind, StateT.bind, get,
        getThe, MonadStateOf.get, StateT.get, pure, StateT.pure, h1, h2, hc]

theorem Stateful_HighlightFailingString_run (a : List GoValue) (w : World) :
    (Stateful.HighlightFailingString a).run w = (HighlightFailingString w.lib w.vars a, w) := by
  have hc := colorSprint_run
  simp only [StateT.run] at hc
  by_cases h1 : w.vars.IsAnsiDisabled = true
  · simp [Stateful.HighlightFailingString, HighlightFailingString, StateT.run, bind, StateT.bind, get,
      getThe, MonadStateOf.get, StateT.get, pure, StateT.pure, h1]
  · by_cases h2 : w.vars.CurrentTheme = ThemeDark
    · simp [Stateful.HighlightFailingString, HighlightFailingString, StateT.run, bind, StateT.bind, get,
        getThe, MonadStateOf.get, StateT.get, pure, StateT.pure, h1, h2, hc]
    · simp [Stateful.HighlightFailingString, HighlightFailingString, StateT.run, bind, StateT.bind, get,
        getThe, MonadStateOf.get, StateT.get, pure, StateT.pure, h1, h2, hc]

theorem Stateful_HighlightGrayString_run (a : List GoValue) (w : World) :
    (Stateful.HighlightGrayString a).run w = (HighlightGrayString w.lib w.vars a, w) := by
  have hc := colorSprint_run
  simp only [StateT.run] at hc
  by_cases h1 : w.vars.IsAnsiDisabled = true
  · simp [Stateful.HighlightGrayString, HighlightGrayString, StateT.run, bind, StateT.bind, get,
      getThe, MonadStateOf.get, StateT.get, pure, StateT.pure, h1]
  · by_cases h2 : w.vars.CurrentTheme = ThemeDark
    · simp [Stateful.HighlightGrayString, HighlightGrayString, StateT.run, bind, StateT.bind, get,
        getThe, MonadStateOf.get, StateT.get, pure, StateT.pure, h1, h2, hc]
    · simp [Stateful.HighlightGrayString, HighlightGrayString, StateT.run, bind, StateT.bind, get,
        getThe, MonadStateOf.get, StateT.get, pure, StateT.pure, h1, h2, hc]

theorem Stateful_GetPassingColorScheme_run (w : World) :
    Stateful.GetPassingColorScheme.run w = (GetPassingColorScheme w.vars, w) := by
  by_cases h1 : w.vars.IsAnsiDisabled = true
  · simp [Stateful.GetPassingColorScheme, GetPassingColorScheme, StateT.run, bind, StateT.bind, get,
      getThe, MonadStateOf.get, StateT.get, pure, StateT.pure, h1]
  · by_cases h2 : w.vars.CurrentTheme = ThemeDark
    · simp [Stateful.GetPassingColorScheme, GetPassingColorScheme, StateT.run, bind, StateT.bind, get,
        getThe, MonadStateOf.get, StateT.get, pure, StateT.pure, h1, h2]
    · simp [Stateful.GetPassingColorScheme, GetPassingColorScheme, StateT.run, bind, StateT.bind, get,
        getThe, MonadStateOf.get, StateT.get, pure, StateT.pure, h1, h2]

theorem Stateful_GetFailingColorScheme_run (w : World) :
    Stateful.GetFailingColorScheme.run w = (GetFailingColorScheme w.vars, w) := by
  by_cases h1 : w.vars.IsAnsiDisabled = true
  · simp [Stateful.GetFailingColorScheme, GetFailingColorScheme, StateT.run, bind, StateT.bind, get,
      getThe, MonadStateOf.get, StateT.get, pure, StateT.pure, h1]
  · by_cases h2 : w.vars.CurrentTheme = ThemeDark
    · simp [Stateful.GetFailingColorScheme, GetFailingColorScheme, StateT.run, bind, StateT.bind, get,
        getThe, MonadStateOf.get, StateT.get, pure, StateT.pure, h1, h2]
    · simp [Stateful.GetFailingColorScheme, GetFailingColorScheme, StateT.run, bind, StateT.bind, get,
        getThe, MonadStateOf.get, StateT.get, pure, StateT.pure, h1, h2]

theorem call_run (c : Call) (w : World) :
    (call c).run w = (callValue w.lib c w.vars, w) := by
  cases c with
  | HighlightString a =>
    have h := Stateful_HighlightString_run a w
    simp only [StateT.run] at h
    simp only [call, callValue, StateT.run, bind, StateT.bind, pure, StateT.pure, h]
  | HighlightPassingString a =>
    have h := Stateful_HighlightPassingString_run a w
    simp only [StateT.run] at h
    simp only [call, callValue, StateT.run, bind, StateT.bind, pure, StateT.pure, h]
  | HighlightFailingString a =>
    have h := Stateful_HighlightFailingString_run a w
    simp only [StateT.run] at h
    simp only [call, callValue, StateT.run, bind, StateT.bind, pure, StateT.pure, h]
  | HighlightGrayString a =>
    have h := Stateful_HighlightGrayString_run a w
    simp only [StateT.run] at h
    simp only [call, callValue, StateT.run, bind, StateT.bind, pure, StateT.pure, h]
  | GetPassingColorScheme =>
    have h := Stateful_GetPassingColorScheme_run w
    simp only [StateT.run] at h
    simp only [call, callValue, StateT.run, bind, StateT.bind, pure, StateT.pure, h]
  | GetFailingColorScheme =>
    have h := Stateful_GetFailingColorScheme_run w
    simp only [StateT.run] at h
    simp only [call, callValue, StateT.run, bind, StateT.bind, pure, StateT.pure, h]

theorem calls_run_cons (c : Call) (cs : List Call) (w : World) :
    (calls (c :: cs)).run w =
      (((call c).run w).1 :: ((calls cs).run ((call c).run w).2).1,
        ((calls cs).run ((call c).run w).2).2) := by
  simp only [calls, StateT.run, bind, StateT.bind, pure, StateT.pure]
  rfl

theorem calls_world (cs : List Call) (w : World) : ((calls cs).run w).2 = w := by
  induction cs with
  | nil => simp [calls, StateT.run, pure, StateT.pure]
  | cons c cs ih =>
    rw [calls_run_cons, call_run]
    exact ih

theorem calls_values_append (xs ys : List Call) (w : World) :
    ((calls (xs ++ ys)).run w).1 = ((calls xs).run w).1 ++ ((calls ys).run w).1 := by
  induction xs with
  | nil => simp [calls, StateT.run, pure, StateT.pure]
  | cons c cs ih =>
    rw [List.cons_append, calls_run_cons, calls_run_cons, call_run]
    simp only [List.cons_append, List.cons.injEq, true_and]
    exact ih

theorem SprintFunc_of_off_eq (env env' : color.Env) (ps : List color.Attribute)
    (a : List GoValue) (h : env'.off = env.off) :
    (color.New env' ps).SprintFunc env' a = (color.New env ps).SprintFunc env a := by
  rcases env with ⟨n, s⟩
  rcases env' with ⟨n', s'⟩
  cases n <;> cases s <;> cases n' <;> cases s' <;>
    simp [color.Env.off] at h <;>
    simp [color.Color.SprintFunc, color.Color.wrap, color.Color.isNoColorSet, color.New,
      color.Color.format, color.Color.unformat, color.Color.sequence]

theorem callValue_of_off_eq (env env' : color.Env) (c : Call) (st : State)
    (h : env'.off = env.off) : callValue env' c st = callValue env c st := by
  cases c <;>
    simp only [callValue, HighlightString, HighlightPassingString, HighlightFailingString,
      HighlightGrayString, SprintFunc_of_off_eq env env' _ _ h]

theorem callValue_of_disabled_or_getter (env env' : color.Env) (c : Call) (st : State)
    (h : st.IsAnsiDisabled = true ∨ c = Call.GetPassingColorScheme ∨
      c = Call.GetFailingColorScheme) :
    callValue env' c st = callValue env c st := by
  rcases h with h | h | h
  · cases c <;>
      simp [callValue, HighlightString, HighlightPassingString, HighlightFailingString,
        HighlightGrayString, h]
  · subst h
    rfl
  · subst h
    rfl

/-- Claim C12, as the code has it: run as computations on the world, each highlighter
and each scheme getter leaves `CurrentTheme` and `IsAnsiDisabled` (and the surroundings
of the colour library) as they were, and so does any sequence of such calls; a call
returns what the function of the package variables gives, the same after any sequence
of calls as before it; two calls with the same theme, the same ANSI flag and the same
arguments return the same value when the colour library is switched the same way, and
whatever the library switch when ANSI is disabled or the call is a scheme getter. -/
theorem resolution_reads_state_args_and_library_switch (c : Call) (cs : List Call)
    (w w' : World) :
    ((call c).run w).2 = w ∧
    ((calls cs).run w).2 = w ∧
    ((call c).run w).1 = callValue w.lib c w.vars ∧
    ((call c).run ((calls cs).run w).2).1 = ((call c).run w).1 ∧
    ((calls (c :: (cs ++ [c]))).run w).1 =
      ((call c).run w).1 :: (((calls cs).run w).1 ++ [((call c).run w).1]) ∧
    (w'.vars.CurrentTheme = w.vars.CurrentTheme →
      w'.vars.IsAnsiDisabled = w.vars.IsAnsiDisabled →
      w'.lib.off = w.lib.off →
      ((call c).run w').1 = ((call c).run w).1) ∧
    (w'.vars.CurrentTheme = w.vars.CurrentTheme →
      w'.vars.IsAnsiDisabled = w.vars.IsAnsiDisabled →
      (w.vars.IsAnsiDisabled = true ∨ c = Call.GetPassingColorScheme ∨
        c = Call.GetFailingColorScheme) →
      ((call c).run w').1 = ((call c).run w).1) := by
  have hvars : w'.vars.CurrentTheme = w.vars.CurrentTheme →
      w'.vars.IsAnsiDisabled = w.vars.IsAnsiDisabled → w'.vars = w.vars := by
    intro ht hb
    rcases w with ⟨⟨t, d⟩, l⟩
    rcases w' with ⟨⟨t', d'⟩, l'⟩
    simp only [State.mk.injEq] at *
    exact ⟨ht, hb⟩
  refine ⟨?_, calls_world cs w, ?_, ?_, ?_, ?_, ?_⟩
  · rw [call_run]
  · rw [call_run]
  · rw [calls_world]
  · rw [calls_run_cons, call_run, calls_values_append, calls_run_cons, call_run]
    simp [calls, StateT.run, pure, StateT.pure]
  · intro ht hb hoff
    rw [call_run, call_run, hvars ht hb]
    exact callValue_of_off_eq w.lib w'.lib c w.vars hoff
  · intro ht hb hc
    rw [call_run, call_run, hvars ht hb]
    exact callValue_of_disabled_or_getter w.lib w'.lib c w.vars hc

theorem resolution_reads_state_args_and_library_switch_witness :
    ((call (Call.HighlightString [GoValue.str "a"])).run
        ⟨⟨ThemeDark, false⟩, ⟨true, false⟩⟩).1 =
      ((call (Call.HighlightString [GoValue.str "a"])).run
        ⟨⟨ThemeDark, false⟩, ⟨false, true⟩⟩).1 ∧
    ((call Call.GetFailingColorScheme).run ⟨⟨ThemeDark, false⟩, ⟨true, false⟩⟩).1 =
      ((call Call.GetFailingColorScheme).run ⟨⟨ThemeDark, false⟩, ⟨false, false⟩⟩).1 :=
  ⟨(resolution_reads_state_args_and_library_switch (Call.HighlightString [GoValue.str "a"])
      [Call.GetPassingColorScheme] ⟨⟨ThemeDark, false⟩, ⟨false, true⟩⟩
      ⟨⟨ThemeDark, false⟩, ⟨true, false⟩⟩).2.2.2.2.2.1 rfl rfl rfl,
    (resolution_reads_state_args_and_library_switch Call.GetFailingColorScheme []
      ⟨⟨ThemeDark, false⟩, ⟨false, false⟩⟩
      ⟨⟨ThemeDark, false⟩, ⟨true, false⟩⟩).2.2.2.2.2.2 rfl rfl (Or.inr (Or.inr rfl))⟩

/-- Claim C12 as stated fails: with theme Dark, ANSI enabled and the argument "ok",
`HighlightPassingString` returns the coloured text when the colour library is switched
on and the plain text when `color.NoColor` is true, although theme, ANSI flag and
arguments are the same in both calls. -/
theorem resolution_varies_with_library_switch :
    ((call (Call.HighlightPassingString [GoValue.str "ok"])).run
        ⟨⟨ThemeDark, false⟩, ⟨false, false⟩⟩).1 =
      CallResult.text ("\x1b[92m" ++ "[ok]" ++ "\x1b[0m") ∧
    ((call (Call.HighlightPassingString [GoValue.str "ok"])).run
        ⟨⟨ThemeDark, false⟩, ⟨true, false⟩⟩).1 = CallResult.text "[ok]" ∧
    ((call (Call.HighlightPassingString [GoValue.str "ok"])).run
        ⟨⟨ThemeDark, false⟩, ⟨false, false⟩⟩).1 ≠
      ((call (Call.HighlightPassingString [GoValue.str "ok"])).run
        ⟨⟨ThemeDark, false⟩, ⟨true, false⟩⟩).1 := by
  decide

/-- Claim C13: only the exact value "dark" selects the Dark variants; for every other
theme value, for both settings of the ANSI flag, the four highlighters and the two
scheme getters return what they return for `ThemeLight`; "", "Dark" and "DARK" are
such values. -/
theorem unrecognised_theme_is_light (env : color.Env) (t : Theme) (b : Bool)
    (a : List GoValue) (ht : t ≠ ThemeDark) :
    HighlightString env ⟨t, b⟩ a = HighlightString env ⟨ThemeLight, b⟩ a ∧
    HighlightPassingString env ⟨t, b⟩ a = HighlightPassingString env ⟨ThemeLight, b⟩ a ∧
    HighlightFailingString env ⟨t, b⟩ a = HighlightFailingString env ⟨ThemeLight, b⟩ a ∧
    HighlightGrayString env ⟨t, b⟩ a = HighlightGrayString env ⟨ThemeLight, b⟩ a ∧
    GetPassingColorScheme ⟨t, b⟩ = GetPassingColorScheme ⟨ThemeLight, b⟩ ∧
    GetFailingColorScheme ⟨t, b⟩ = GetFailingColorScheme ⟨ThemeLight, b⟩ ∧
    ("" : Theme) ≠ ThemeDark ∧ ("Dark" : Theme) ≠ ThemeDark ∧ ("DARK" : Theme) ≠ ThemeDark := by
  have hl : ¬ ThemeLight = ThemeDark := by decide
  refine ⟨?_, ?_, ?_, ?_, ?_, ?_, by decide, by decide, by decide⟩
  · simp only [HighlightString, ht, hl, if_false]
  · simp only [HighlightPassingString, ht, hl, if_false]
  · simp only [HighlightFailingString, ht, hl, if_false]
  · simp only [HighlightGrayString, ht, hl, if_false]
  · simp only [GetPassingColorScheme, ht, hl, if_false]
  · simp only [GetFailingColorScheme, ht, hl, if_false]

theorem unrecognised_theme_is_light_witness :
    ("Dark" : Theme) ≠ ThemeDark ∧
      GetPassingColorScheme ⟨"Dark", false⟩ = GetPassingColorScheme ⟨ThemeLight, false⟩ :=
  ⟨by decide,
    (unrecognised_theme_is_light ⟨false, false⟩ "Dark" false [] (by decide)).2.2.2.2.1⟩

/-- Claim C14: with ANSI enabled, for every theme, the passing and the failing scheme
carry the same attribute for Bool, Integer, Float, EscapedChar, PointerAdress, Nil, Time
and ObjectLength and different attributes for String, StringQuotation and FieldName;
String and StringQuotation are `pp.Green`, with or without `pp.Bold`, in the passing
scheme and `pp.Red`, with or without `pp.Bold`, in the failing scheme. -/
theorem passing_failing_schemes_compared (t : Theme) :
    ((GetPassingColorScheme ⟨t, false⟩).Bool = (GetFailingColorScheme ⟨t, false⟩).Bool ∧
      (GetPassingColorScheme ⟨t, false⟩).Integer = (GetFailingColorScheme ⟨t, false⟩).Integer ∧
      (GetPassingColorScheme ⟨t, false⟩).Float = (GetFailingColorScheme ⟨t, false⟩).Float ∧
      (GetPassingColorScheme ⟨t, false⟩).EscapedChar =
        (GetFailingColorScheme ⟨t, false⟩).EscapedChar ∧
      (GetPassingColorScheme ⟨t, false⟩).PointerAdress =
        (GetFailingColorScheme ⟨t, false⟩).PointerAdress ∧
      (GetPassingColorScheme ⟨t, false⟩).Nil = (GetFailingColorScheme ⟨t, false⟩).Nil ∧
      (GetPassingColorScheme ⟨t, false⟩).Time = (GetFailingColorScheme ⟨t, false⟩).Time ∧
      (GetPassingColorScheme ⟨t, false⟩).ObjectLength =
        (GetFailingColorScheme ⟨t, false⟩).ObjectLength) ∧
    ((GetPassingColorScheme ⟨t, false⟩).String ≠ (GetFailingColorScheme ⟨t, false⟩).String ∧
      (GetPassingColorScheme ⟨t, false⟩).StringQuotation ≠
        (GetFailingColorScheme ⟨t, false⟩).StringQuotation ∧
      (GetPassingColorScheme ⟨t, false⟩).FieldName ≠
        (GetFailingColorScheme ⟨t, false⟩).FieldName) ∧
    (((GetPassingColorScheme ⟨t, false⟩).String = pp.Green ∨
        (GetPassingColorScheme ⟨t, false⟩).String = pp.Green ||| pp.Bold) ∧
      (GetPassingColorScheme ⟨t, false⟩).StringQuotation = pp.Green ||| pp.Bold ∧
      ((GetFailingColorScheme ⟨t, false⟩).String = pp.Red ∨
        (GetFailingColorScheme ⟨t, false⟩).String = pp.Red ||| pp.Bold) ∧
      (GetFailingColorScheme ⟨t, false⟩).StringQuotation = pp.Red ||| pp.Bold) := by
  by_cases ht : t = ThemeDark
  · subst ht
    decide
  · have hl : ¬ ThemeLight = ThemeDark := by decide
    have hp : GetPassingColorScheme ⟨t, false⟩ = GetPassingColorScheme ⟨ThemeLight, false⟩ := by
      simp only [GetPassingColorScheme, ht, hl, if_false]
    have hf : GetFailingColorScheme ⟨t, false⟩ = GetFailingColorScheme ⟨ThemeLight, false⟩ := by
      simp only [GetFailingColorScheme, ht, hl, if_false]
    rw [hp, hf]
    decide

/-! ## Sequences of `Set` calls -/

theorem Set_fst_accepted (e : Language) (v : String)
    (he : e ∈ [Go, Java, Python, Javascript]) :
    (Language.Set e v).1 ∈ [Go, Java, Python, Javascript] := by
  by_cases h : v = "go" ∨ v = "java" ∨ v = "python" ∨ v = "javascript"
  · rw [Set_eq_of_accepted e v h]
    simpa [Go, Java, Python, Javascript] using h
  · rw [Set_eq_of_rejected e v h]
    exact he

theorem Set_fst_accepted_of_nil (e : Language) (v : String)
    (h : (Language.Set e v).2 = none) :
    (Language.Set e v).1 ∈ [Go, Java, Python, Javascript] := by
  by_cases hv : v = "go" ∨ v = "java" ∨ v = "python" ∨ v = "javascript"
  · rw [Set_eq_of_accepted e v hv]
    simpa [Go, Java, Python, Javascript] using hv
  · rw [Set_eq_of_rejected e v hv] at h
    exact absurd h (by simp)

theorem setSequence_keeps_accepted (vs : List String) (e : Language)
    (he : e ∈ [Go, Java, Python, Javascript]) :
    (setSequence e vs).1 ∈ [Go, Java, Python, Javascript] := by
  induction vs generalizing e with
  | nil => exact he
  | cons v vs ih =>
    simp only [setSequence]
    exact ih _ (Set_fst_accepted e v he)

theorem setSequence_accepted_of_success (vs : List String) (e : Language)
    (h : none ∈ (setSequence e vs).2) :
    (setSequence e vs).1 ∈ [Go, Java, Python, Javascript] := by
  induction vs generalizing e with
  | nil => simp [setSequence] at h
  | cons v vs ih =>
    simp only [setSequence, List.mem_cons] at h
    simp only [setSequence]
    rcases h with h | h
    · exact setSequence_keeps_accepted vs _ (Set_fst_accepted_of_nil e v h.symm)
    · exact ih _ h

/-- Claim C15: after any sequence of `Set` calls of which at least one returned nil the
value is one of `Go`, `Java`, `Python`, `Javascript`, and so it is not `Unknown`; `Set`
rejects "Unknown" and the differently cased "Go" and "GO", leaving the value as it was. -/
theorem Set_sequence_stays_in_closed_set (e : Language) (vs : List String)
    (h : none ∈ (setSequence e vs).2) :
    (setSequence e vs).1 ∈ [Go, Java, Python, Javascript] ∧
    (setSequence e vs).1 ≠ Unknown ∧
    Language.Set e "Unknown" = (e, some invalidLanguageMessage) ∧
    Language.Set e "Go" = (e, some invalidLanguageMessage) ∧
    Language.Set e "GO" = (e, some invalidLanguageMessage) := by
  have hm := setSequence_accepted_of_success vs e h
  refine ⟨hm, ?_, ?_, ?_, ?_⟩
  · intro hu
    rw [hu] at hm
    exact absurd hm (by decide)
  · exact Set_eq_of_rejected e "Unknown" (by decide)
  · exact Set_eq_of_rejected e "Go" (by decide)
  · exact Set_eq_of_rejected e "GO" (by decide)

theorem Set_sequence_stays_in_closed_set_witness :
    none ∈ (setSequence Unknown ["ruby", "python", "Unknown"]).2 ∧
      (setSequence Unknown ["ruby", "python", "Unknown"]).1 ∈ [Go, Java, Python, Javascript] :=
  ⟨by decide,
    (Set_sequence_stays_in_closed_set Unknown ["ruby", "python", "Unknown"] (by decide)).1⟩

end Models
